import Mathlib

/-!
Shallow embedding of the Zenith Broking backend core: the Ledger Store
primitives from backend/database.py and the withdraw/transfer handlers
from backend/main.py, together with theorems settling the specification
claims about them.

Modelling conventions:
- Mongo collections are association lists keyed by the id string; find_one
  and update_one act on the first matching entry (ids are unique in Mongo,
  so first-match agrees with the database).
- Python floats carried in request amounts and capital fields are modelled
  as exact rationals; Python int() is truncation toward zero.
- The constructor ObjectId(id_str), which raises on a malformed id, is
  modelled by a validity predicate on id strings passed as a parameter.
- The outbound HTTP POST to the payout provider is a parameter function
  from the request payload to an outcome; an exception anywhere in the
  try block (network error, timeout, JSON decode failure) is one outcome
  constructor.
-/

/-- Client document as stored in the client collection.  The capital field
is optional at the document level because the handlers read it with
client.get("capital", 0) and Mongo $inc creates a missing field. -/
structure Client where
  name : String
  email : String
  phone : Option String
  capital : Option ℚ
  profit : ℚ
deriving DecidableEq

/-- Body of the recorded external result: the parsed provider JSON
(opaque string), the empty dict used when the response has no content, or
the synthetic error dict built in the except branch. -/
inductive RpBody where
  | json (s : String)
  | empty
  | error (msg : String)
deriving DecidableEq

/-- Snapshot of the payout call result as stored in the log and echoed in
the response: a status code and a body. -/
structure ExternalField where
  status : Nat
  body : RpBody
deriving DecidableEq

/-- Outcome of one outbound HTTP POST to the payout provider, as observed
inside the try block of the handlers. -/
inductive GatewayOutcome where
  | respondedJson (status : Nat) (body : String)
  | respondedEmpty (status : Nat)
  | exn (msg : String)
deriving DecidableEq

/-- Capture of the try/except in both handlers: a response is passed
through verbatim (empty content becomes the empty dict); a raised
exception becomes the synthetic result with status 500 and an error
body. -/
def gatewayCapture : GatewayOutcome → ExternalField
  | .respondedJson s b => ⟨s, .json b⟩
  | .respondedEmpty s => ⟨s, .empty⟩
  | .exn msg => ⟨500, .error msg⟩

/-- JSON payload of the outbound payout POST, built in main.py. -/
structure PayoutPayload where
  account_number : String
  fund_account_id : String
  amount : ℤ
  currency : String
  mode : String
  purpose : String
  queue_if_low_balance : Bool
  reference_id : String
  narration : String
deriving DecidableEq

/-- Python int() on a number: truncation toward zero. -/
def pyInt (q : ℚ) : ℤ := if 0 ≤ q then ⌊q⌋ else ⌈q⌉

/-- Python x or dflt on an optional string: None and the empty string are
falsy. -/
def pyOrStr (x : Option String) (dflt : String) : String :=
  match x with
  | some s => if s = "" then dflt else s
  | none => dflt

/-- Environment configuration read by the handlers. -/
structure Env where
  source_account : String
  fund_account_id : String
deriving DecidableEq

/-- Body of POST /api/withdraw (schemas.WithdrawRequest). -/
structure WithdrawRequest where
  client_id : String
  amount : ℚ
  note : Option String
deriving DecidableEq

/-- Body of POST /api/transfer (schemas.TransferRequest). -/
structure TransferRequest where
  from_client_id : String
  to_client_id : String
  amount : ℚ
  note : Option String
deriving DecidableEq

/-- TransactionLog document as inserted by the handlers. -/
structure LogRecord where
  client_id : String
  amount : ℚ
  action : String
  timestamp : Nat
  note : Option String
  external : ExternalField
deriving DecidableEq

/-- State of the two collections the handlers touch, plus a counter
generating fresh ObjectIds for inserted log documents. -/
structure Store where
  clients : List (String × Client)
  logs : List (String × LogRecord)
  nextId : Nat
deriving DecidableEq

/-- Mongo find_one on an id-keyed collection: first matching document. -/
def assocFind (coll : List (String × α)) (id : String) : Option α :=
  match coll with
  | [] => none
  | (k, v) :: rest => if k = id then some v else assocFind rest id

/-- database.py get_document_by_id: none when ObjectId(id_str) raises
(the id is malformed) or when no document matches; otherwise the
document. -/
def get_document_by_id (validId : String → Bool) (coll : List (String × α)) (id : String) :
    Option α :=
  if validId id then assocFind coll id else none

/-- Mongo $inc of the capital field by delta on one document: a missing
field is created holding the delta. -/
def incCapitalDoc (c : Client) (delta : ℚ) : Client :=
  { c with capital := some (c.capital.getD 0 + delta) }

/-- Mongo update_one with $inc on capital: updates the first matching
document; the flag reports whether a document matched. -/
def assocIncCapital : List (String × Client) → String → ℚ → List (String × Client) × Bool
  | [], _, _ => ([], false)
  | (k, v) :: rest, id, delta =>
    if k = id then ((k, incCapitalDoc v delta) :: rest, true)
    else
      let r := assocIncCapital rest id delta
      ((k, v) :: r.1, r.2)

/-- database.py increment_field_by_id specialised to the capital field of
the client collection: false when the id is malformed or no document
matches. -/
def increment_field_by_id (validId : String → Bool) (coll : List (String × Client))
    (id : String) (delta : ℚ) : List (String × Client) × Bool :=
  if validId id then assocIncCapital coll id delta else (coll, false)

/-- String form of the ObjectId generated by insert_one for the n-th
inserted document. -/
def newLogId (n : Nat) : String := "oid_" ++ toString n

/-- FastAPI HTTPException raised by a handler. -/
structure HTTPError where
  status : Nat
  detail : String
deriving DecidableEq

/-- Success body returned by both handlers. -/
structure ProcessedResponse where
  status : String
  log_id : String
  razorpay : ExternalField
deriving DecidableEq

/-- Payout payload built in the withdraw handler (main.py lines 142-152). -/
def withdrawPayoutPayload (env : Env) (now : Nat) (p : WithdrawRequest) : PayoutPayload :=
  { account_number := env.source_account
    fund_account_id := env.fund_account_id
    amount := pyInt (p.amount * 100)
    currency := "INR"
    mode := "IMPS"
    purpose := "payout"
    queue_if_low_balance := true
    reference_id := "wd_" ++ p.client_id ++ "_" ++ toString now
    narration := pyOrStr p.note "Withdrawal" }

/-- Payout payload built in the transfer handler (main.py lines 196-206). -/
def transferPayoutPayload (env : Env) (now : Nat) (p : TransferRequest) : PayoutPayload :=
  { account_number := env.source_account
    fund_account_id := env.fund_account_id
    amount := pyInt (p.amount * 100)
    currency := "INR"
    mode := "IMPS"
    purpose := "payout"
    queue_if_low_balance := true
    reference_id := "tf_" ++ p.from_client_id ++ "_" ++ p.to_client_id ++ "_" ++ toString now
    narration := pyOrStr p.note "Transfer" }

/-- main.py withdraw handler (lines 129-172), after the auth gate.  The
order of steps follows the source: lookup, sufficiency check, payout call,
unconditional balance decrement, log insert, response. -/
def withdraw (env : Env) (validId : String → Bool)
    (gateway : PayoutPayload → GatewayOutcome) (now : Nat) (st : Store)
    (p : WithdrawRequest) : Except HTTPError (Store × ProcessedResponse) :=
  match get_document_by_id validId st.clients p.client_id with
  | none => .error ⟨404, "Client not found"⟩
  | some client =>
    if client.capital.getD 0 < p.amount then
      .error ⟨400, "Insufficient balance"⟩
    else
      let ext := gatewayCapture (gateway (withdrawPayoutPayload env now p))
      let clients1 := (increment_field_by_id validId st.clients p.client_id (-p.amount)).1
      let logId := newLogId st.nextId
      let logDoc : LogRecord :=
        { client_id := p.client_id, amount := p.amount, action := "withdraw",
          timestamp := now, note := p.note, external := ext }
      .ok ({ clients := clients1, logs := st.logs ++ [(logId, logDoc)],
             nextId := st.nextId + 1 },
           { status := "processed", log_id := logId, razorpay := ext })

/-- main.py transfer handler (lines 175-224), after the auth gate.  The
order of steps follows the source: amount check, both lookups, sufficiency
check, the two increments, payout call, log insert keyed to the
destination client, response. -/
def transfer (env : Env) (validId : String → Bool)
    (gateway : PayoutPayload → GatewayOutcome) (now : Nat) (st : Store)
    (p : TransferRequest) : Except HTTPError (Store × ProcessedResponse) :=
  if p.amount ≤ 0 then .error ⟨400, "Invalid amount"⟩
  else
    match get_document_by_id validId st.clients p.from_client_id,
          get_document_by_id validId st.clients p.to_client_id with
    | none, _ => .error ⟨404, "Client not found"⟩
    | some _, none => .error ⟨404, "Client not found"⟩
    | some fromClient, some _ =>
      if fromClient.capital.getD 0 < p.amount then
        .error ⟨400, "Insufficient balance"⟩
      else
        let clients1 := (increment_field_by_id validId st.clients p.from_client_id (-p.amount)).1
        let clients2 := (increment_field_by_id validId clients1 p.to_client_id p.amount).1
        let ext := gatewayCapture (gateway (transferPayoutPayload env now p))
        let logId := newLogId st.nextId
        let logDoc : LogRecord :=
          { client_id := p.to_client_id, amount := p.amount, action := "transfer",
            timestamp := now, note := p.note, external := ext }
        .ok ({ clients := clients2, logs := st.logs ++ [(logId, logDoc)],
               nextId := st.nextId + 1 },
             { status := "processed", log_id := logId, razorpay := ext })

/-!
Helper lemmas about the store primitives.
-/

theorem assocFind_incCapital_same (coll : List (String × Client)) (id : String) (d : ℚ) :
    assocFind (assocIncCapital coll id d).1 id =
      (assocFind coll id).map (fun c => incCapitalDoc c d) := by
  induction coll with
  | nil => rfl
  | cons hd tl ih =>
    obtain ⟨k, v⟩ := hd
    by_cases h : k = id <;> simp [assocFind, assocIncCapital, h, ih]

theorem assocFind_incCapital_ne (coll : List (String × Client)) (id k : String) (d : ℚ)
    (h : k ≠ id) :
    assocFind (assocIncCapital coll id d).1 k = assocFind coll k := by
  induction coll with
  | nil => rfl
  | cons hd tl ih =>
    obtain ⟨k0, v⟩ := hd
    by_cases h0 : k0 = id
    · subst h0
      simp [assocFind, assocIncCapital, Ne.symm h]
    · by_cases h1 : k0 = k <;> simp [assocFind, assocIncCapital, h0, h1, h, ih]

theorem assocFind_mem {coll : List (String × α)} {id : String} {d : α}
    (h : assocFind coll id = some d) : (id, d) ∈ coll := by
  induction coll with
  | nil => simp [assocFind] at h
  | cons hd tl ih =>
    obtain ⟨k, v⟩ := hd
    by_cases hk : k = id
    · subst hk
      simp [assocFind] at h
      simp [h]
    · simp [assocFind, hk] at h
      exact List.mem_cons_of_mem _ (ih h)

theorem assocFind_eq_none {coll : List (String × α)} {id : String}
    (h : ∀ q ∈ coll, q.1 ≠ id) : assocFind coll id = none := by
  induction coll with
  | nil => rfl
  | cons hd tl ih =>
    obtain ⟨k, v⟩ := hd
    have hk : k ≠ id := h (k, v) (List.mem_cons_self _ _)
    simp only [assocFind, if_neg hk]
    exact ih fun q hq => h q (List.mem_cons_of_mem _ hq)

theorem pyInt_of_den_one {q : ℚ} (h : q.den = 1) : (pyInt q : ℚ) = q := by
  have hq : ((q.num : ℚ)) = q := Rat.coe_int_num_of_den_eq_one h
  unfold pyInt
  by_cases h0 : 0 ≤ q
  · rw [if_pos h0, ← hq, Int.floor_intCast]
  · rw [if_neg h0, ← hq, Int.ceil_intCast]

/-!
Concrete fixtures used by witnesses and counterexamples.
-/

def sampleEnv : Env := { source_account := "000000000000", fund_account_id := "fa_XXXX" }

def sampleClient : Client :=
  { name := "Alice", email := "alice@example.com", phone := none,
    capital := some 100, profit := 0 }

def sampleClient2 : Client :=
  { name := "Bob", email := "bob@example.com", phone := none,
    capital := some 50, profit := 0 }

def allValid : String → Bool := fun _ => true

def gwDown : PayoutPayload → GatewayOutcome := fun _ => .exn "timeout"

def sampleStore : Store :=
  { clients := [("c1", sampleClient), ("c2", sampleClient2)], logs := [], nextId := 7 }

def emptyStore : Store := { clients := [], logs := [], nextId := 0 }

/-!
Success-path lemmas shared by several claim theorems.
-/

theorem withdraw_ok (env : Env) (validId : String → Bool)
    (gateway : PayoutPayload → GatewayOutcome) (now : Nat) (st : Store)
    (p : WithdrawRequest) (c : Client)
    (hv : validId p.client_id = true)
    (hc : assocFind st.clients p.client_id = some c)
    (hnl : ¬ c.capital.getD 0 < p.amount) :
    withdraw env validId gateway now st p =
      .ok ({ clients := (assocIncCapital st.clients p.client_id (-p.amount)).1,
             logs := st.logs ++ [(newLogId st.nextId,
               { client_id := p.client_id, amount := p.amount, action := "withdraw",
                 timestamp := now, note := p.note,
                 external := gatewayCapture (gateway (withdrawPayoutPayload env now p)) })],
             nextId := st.nextId + 1 },
           { status := "processed", log_id := newLogId st.nextId,
             razorpay := gatewayCapture (gateway (withdrawPayoutPayload env now p)) }) := by
  simp [withdraw, get_document_by_id, hv, hc, hnl, increment_field_by_id]

theorem transfer_ok (env : Env) (validId : String → Bool)
    (gateway : PayoutPayload → GatewayOutcome) (now : Nat) (st : Store)
    (p : TransferRequest) (cf ct : Client)
    (hpos : ¬ p.amount ≤ 0)
    (hvf : validId p.from_client_id = true)
    (hvt : validId p.to_client_id = true)
    (hcf : assocFind st.clients p.from_client_id = some cf)
    (hct : assocFind st.clients p.to_client_id = some ct)
    (hnl : ¬ cf.capital.getD 0 < p.amount) :
    transfer env validId gateway now st p =
      .ok ({ clients := (assocIncCapital
               (assocIncCapital st.clients p.from_client_id (-p.amount)).1
               p.to_client_id p.amount).1,
             logs := st.logs ++ [(newLogId st.nextId,
               { client_id := p.to_client_id, amount := p.amount, action := "transfer",
                 timestamp := now, note := p.note,
                 external := gatewayCapture (gateway (transferPayoutPayload env now p)) })],
             nextId := st.nextId + 1 },
           { status := "processed", log_id := newLogId st.nextId,
             razorpay := gatewayCapture (gateway (transferPayoutPayload env now p)) }) := by
  simp [transfer, get_document_by_id, hpos, hvf, hvt, hcf, hct, hnl, increment_field_by_id]

/-- C1: for every client stored with capital b, a withdraw request for it
with amount at most b returns status processed carrying the new log id,
leaves the client stored with capital b - amount, and appends exactly one
transactionlog record with action withdraw, the requested amount, the
client id and the captured gateway result. -/
theorem C1_withdraw_success (env : Env) (validId : String → Bool)
    (gateway : PayoutPayload → GatewayOutcome) (now : Nat) (st : Store)
    (p : WithdrawRequest) (c : Client) (b : ℚ)
    (hv : validId p.client_id = true)
    (hc : assocFind st.clients p.client_id = some c)
    (hb : c.capital = some b)
    (hba : p.amount ≤ b) :
    withdraw env validId gateway now st p =
      .ok ({ clients := (assocIncCapital st.clients p.client_id (-p.amount)).1,
             logs := st.logs ++ [(newLogId st.nextId,
               { client_id := p.client_id, amount := p.amount, action := "withdraw",
                 timestamp := now, note := p.note,
                 external := gatewayCapture (gateway (withdrawPayoutPayload env now p)) })],
             nextId := st.nextId + 1 },
           { status := "processed", log_id := newLogId st.nextId,
             razorpay := gatewayCapture (gateway (withdrawPayoutPayload env now p)) }) ∧
    assocFind (assocIncCapital st.clients p.client_id (-p.amount)).1 p.client_id =
      some { c with capital := some (b - p.amount) } := by
  have hnl : ¬ c.capital.getD 0 < p.amount := by
    rw [hb]
    simpa using not_lt.mpr hba
  refine ⟨withdraw_ok env validId gateway now st p c hv hc hnl, ?_⟩
  rw [assocFind_incCapital_same, hc]
  simp [incCapitalDoc, hb, sub_eq_add_neg]

/-- Witness for C1 at a concrete store: withdrawing 30 from a client
holding 100 leaves it stored with capital 70. -/
theorem C1_witness :
    assocFind (assocIncCapital sampleStore.clients "c1" (-(30 : ℚ))).1 "c1" =
      some { sampleClient with capital := some (100 - 30) } :=
  (C1_withdraw_success sampleEnv allValid gwDown 0 sampleStore
    ⟨"c1", 30, none⟩ sampleClient 100 rfl (by decide) rfl (by norm_num)).2

/-- C2: a transfer between distinct stored clients with a positive amount
not exceeding the source capital returns status processed, leaves the
source stored with capital a - amount and the destination with capital
b + amount, and appends exactly one transactionlog record keyed to the
destination id with action transfer and the requested amount. -/
theorem C2_transfer_success (env : Env) (validId : String → Bool)
    (gateway : PayoutPayload → GatewayOutcome) (now : Nat) (st : Store)
    (p : TransferRequest) (cf ct : Client) (a b : ℚ)
    (hne : p.from_client_id ≠ p.to_client_id)
    (hvf : validId p.from_client_id = true)
    (hvt : validId p.to_client_id = true)
    (hcf : assocFind st.clients p.from_client_id = some cf)
    (hct : assocFind st.clients p.to_client_id = some ct)
    (ha : cf.capital = some a)
    (hb : ct.capital = some b)
    (hpos : 0 < p.amount)
    (hba : p.amount ≤ a) :
    transfer env validId gateway now st p =
      .ok ({ clients := (assocIncCapital
               (assocIncCapital st.clients p.from_client_id (-p.amount)).1
               p.to_client_id p.amount).1,
             logs := st.logs ++ [(newLogId st.nextId,
               { client_id := p.to_client_id, amount := p.amount, action := "transfer",
                 timestamp := now, note := p.note,
                 external := gatewayCapture (gateway (transferPayoutPayload env now p)) })],
             nextId := st.nextId + 1 },
           { status := "processed", log_id := newLogId st.nextId,
             razorpay := gatewayCapture (gateway (transferPayoutPayload env now p)) }) ∧
    assocFind (assocIncCapital
        (assocIncCapital st.clients p.from_client_id (-p.amount)).1
        p.to_client_id p.amount).1 p.from_client_id =
      some { cf with capital := some (a - p.amount) } ∧
    assocFind (assocIncCapital
        (assocIncCapital st.clients p.from_client_id (-p.amount)).1
        p.to_client_id p.amount).1 p.to_client_id =
      some { ct with capital := some (b + p.amount) } := by
  have hnl : ¬ cf.capital.getD 0 < p.amount := by
    rw [ha]
    simpa using not_lt.mpr hba
  have hle : ¬ p.amount ≤ 0 := not_le.mpr hpos
  refine ⟨transfer_ok env validId gateway now st p cf ct hle hvf hvt hcf hct hnl, ?_, ?_⟩
  · rw [assocFind_incCapital_ne _ _ _ _ hne, assocFind_incCapital_same, hcf]
    simp [incCapitalDoc, ha, sub_eq_add_neg]
  · rw [assocFind_incCapital_same, assocFind_incCapital_ne _ _ _ _ (Ne.symm hne), hct]
    simp [incCapitalDoc, hb]

/-- Witness for C2 at a concrete store: transferring 20 from a client
holding 100 to one holding 50 leaves them stored with 80 and 70. -/
theorem C2_witness :
    assocFind (assocIncCapital
        (assocIncCapital sampleStore.clients "c1" (-(20 : ℚ))).1 "c2" 20).1 "c1" =
      some { sampleClient with capital := some (100 - 20) } ∧
    assocFind (assocIncCapital
        (assocIncCapital sampleStore.clients "c1" (-(20 : ℚ))).1 "c2" 20).1 "c2" =
      some { sampleClient2 with capital := some (50 + 20) } :=
  (C2_transfer_success sampleEnv allValid gwDown 0 sampleStore
    ⟨"c1", "c2", 20, none⟩ sampleClient sampleClient2 100 50 (by decide) rfl rfl
    (by decide) (by decide) rfl rfl (by norm_num) (by norm_num)).2

/-- C3: when validation passes, the handlers treat every gateway outcome
alike: the balance mutation is applied, one log record is written whose
external field is the captured gateway result, and the request returns
status processed; the capture maps a raised exception (network failure,
timeout, non-JSON body) to the synthetic status 500 with an error body
and passes a provider response, 2xx or not, through verbatim. -/
theorem C3_gateway_failure_absorbed (env : Env) (validId : String → Bool)
    (gateway : PayoutPayload → GatewayOutcome) (now : Nat) (st : Store)
    (p : WithdrawRequest) (tp : TransferRequest) (c cf ct : Client) (b a : ℚ)
    (hv : validId p.client_id = true)
    (hc : assocFind st.clients p.client_id = some c)
    (hb : c.capital = some b)
    (hba : p.amount ≤ b)
    (hpos : 0 < tp.amount)
    (hvf : validId tp.from_client_id = true)
    (hvt : validId tp.to_client_id = true)
    (hcf : assocFind st.clients tp.from_client_id = some cf)
    (hct : assocFind st.clients tp.to_client_id = some ct)
    (ha : cf.capital = some a)
    (hta : tp.amount ≤ a) :
    (∃ st1 r1, withdraw env validId gateway now st p = .ok (st1, r1) ∧
      r1.status = "processed" ∧
      st1.clients = (increment_field_by_id validId st.clients p.client_id (-p.amount)).1 ∧
      st1.logs = st.logs ++ [(r1.log_id,
        { client_id := p.client_id, amount := p.amount, action := "withdraw",
          timestamp := now, note := p.note,
          external := gatewayCapture (gateway (withdrawPayoutPayload env now p)) })] ∧
      r1.razorpay = gatewayCapture (gateway (withdrawPayoutPayload env now p))) ∧
    (∃ st2 r2, transfer env validId gateway now st tp = .ok (st2, r2) ∧
      r2.status = "processed" ∧
      st2.clients = (increment_field_by_id validId
        (increment_field_by_id validId st.clients tp.from_client_id (-tp.amount)).1
        tp.to_client_id tp.amount).1 ∧
      st2.logs = st.logs ++ [(r2.log_id,
        { client_id := tp.to_client_id, amount := tp.amount, action := "transfer",
          timestamp := now, note := tp.note,
          external := gatewayCapture (gateway (transferPayoutPayload env now tp)) })] ∧
      r2.razorpay = gatewayCapture (gateway (transferPayoutPayload env now tp))) ∧
    (∀ msg, gatewayCapture (.exn msg) = ⟨500, .error msg⟩) ∧
    (∀ s bodyStr, gatewayCapture (.respondedJson s bodyStr) = ⟨s, .json bodyStr⟩) ∧
    (∀ s, gatewayCapture (.respondedEmpty s) = ⟨s, .empty⟩) := by
  have hnl : ¬ c.capital.getD 0 < p.amount := by
    rw [hb]
    simpa using not_lt.mpr hba
  have hnlf : ¬ cf.capital.getD 0 < tp.amount := by
    rw [ha]
    simpa using not_lt.mpr hta
  have hle : ¬ tp.amount ≤ 0 := not_le.mpr hpos
  refine ⟨⟨_, _, withdraw_ok env validId gateway now st p c hv hc hnl, rfl,
      by simp [increment_field_by_id, hv], rfl, rfl⟩,
    ⟨_, _, transfer_ok env validId gateway now st tp cf ct hle hvf hvt hcf hct hnlf,
      rfl, by simp [increment_field_by_id, hvf, hvt], rfl, rfl⟩,
    fun _ => rfl, fun _ _ => rfl, fun _ => rfl⟩

/-- Witness for C3 at a concrete store with a gateway that always times
out: the withdraw still succeeds and records the synthetic result. -/
theorem C3_witness :
    ∃ st1 r1,
      withdraw sampleEnv allValid gwDown 0 sampleStore ⟨"c1", 30, none⟩ = .ok (st1, r1) ∧
      r1.status = "processed" ∧
      st1.clients = (increment_field_by_id allValid sampleStore.clients "c1" (-(30 : ℚ))).1 ∧
      st1.logs = sampleStore.logs ++ [(r1.log_id,
        { client_id := "c1", amount := 30, action := "withdraw",
          timestamp := 0, note := none,
          external := gatewayCapture
            (gwDown (withdrawPayoutPayload sampleEnv 0 ⟨"c1", 30, none⟩)) })] ∧
      r1.razorpay = gatewayCapture
        (gwDown (withdrawPayoutPayload sampleEnv 0 ⟨"c1", 30, none⟩)) :=
  (C3_gateway_failure_absorbed sampleEnv allValid gwDown 0 sampleStore
    ⟨"c1", 30, none⟩ ⟨"c1", "c2", 20, none⟩ sampleClient sampleClient sampleClient2 100 100
    rfl (by decide) rfl (by norm_num) (by norm_num) rfl rfl (by decide) (by decide)
    rfl (by norm_num)).1

/-- C4: a withdraw request whose amount exceeds the stored capital fails
with HTTP 400 Insufficient balance, whatever the gateway would do; the
handler returns before any increment, payout call or log insert, so the
store is unchanged. -/
theorem C4_withdraw_insufficient (env : Env) (validId : String → Bool)
    (now : Nat) (st : Store) (p : WithdrawRequest) (c : Client) (b : ℚ)
    (hv : validId p.client_id = true)
    (hc : assocFind st.clients p.client_id = some c)
    (hb : c.capital = some b)
    (hgt : b < p.amount) :
    ∀ gw : PayoutPayload → GatewayOutcome,
      withdraw env validId gw now st p = .error ⟨400, "Insufficient balance"⟩ := by
  intro gw
  have hl : c.capital.getD 0 < p.amount := by
    rw [hb]
    simpa using hgt
  simp [withdraw, get_document_by_id, hv, hc, hl]

/-- Witness for C4: withdrawing 200 from a client holding 100 is rejected
with 400 Insufficient balance. -/
theorem C4_witness :
    withdraw sampleEnv allValid gwDown 0 sampleStore ⟨"c1", 200, none⟩ =
      .error ⟨400, "Insufficient balance"⟩ :=
  C4_withdraw_insufficient sampleEnv allValid 0 sampleStore ⟨"c1", 200, none⟩
    sampleClient 100 rfl (by decide) rfl (by norm_num) gwDown

/-- C5: a transfer request with a non-positive amount fails with HTTP 400
Invalid amount for every store, id validity predicate and gateway: the
check is the first statement of the handler, so no lookup, increment,
payout call or log insert happens and the store is unchanged. -/
theorem C5_transfer_invalid_amount (env : Env) (validId : String → Bool)
    (now : Nat) (st : Store) (p : TransferRequest)
    (h : p.amount ≤ 0) :
    ∀ gw : PayoutPayload → GatewayOutcome,
      transfer env validId gw now st p = .error ⟨400, "Invalid amount"⟩ := by
  intro gw
  simp [transfer, h]

/-- Witness for C5: a zero-amount transfer between stored clients is
rejected with 400 Invalid amount. -/
theorem C5_witness :
    transfer sampleEnv allValid gwDown 0 sampleStore ⟨"c1", "c2", 0, none⟩ =
      .error ⟨400, "Invalid amount"⟩ :=
  C5_transfer_invalid_amount sampleEnv allValid 0 sampleStore ⟨"c1", "c2", 0, none⟩
    (by norm_num) gwDown

/-- Counterexample for C6: a transfer whose source and destination ids
both resolve to no record but whose amount is 0 is rejected by the
amount check first, with HTTP 400 Invalid amount rather than 404
NotFound. -/
theorem C6_counterexample :
    get_document_by_id allValid emptyStore.clients "a" = none ∧
    get_document_by_id allValid emptyStore.clients "b" = none ∧
    transfer sampleEnv allValid gwDown 0 emptyStore ⟨"a", "b", 0, none⟩ =
      .error ⟨400, "Invalid amount"⟩ ∧
    (400 : Nat) ≠ 404 :=
  ⟨rfl, rfl, rfl, by decide⟩

/-- C6 as amended: a withdraw whose client id resolves to no record fails
with HTTP 404 Client not found, and a transfer with positive amount where
either id resolves to no record fails with HTTP 404 Client not found; in
both cases the result holds for every gateway and the handler returns
before any increment, payout call or log insert. -/
theorem C6_notfound_amended (env : Env) (validId : String → Bool)
    (now : Nat) (st : Store) (p : WithdrawRequest) (tp : TransferRequest)
    (hw : get_document_by_id validId st.clients p.client_id = none)
    (hpos : 0 < tp.amount)
    (ht : get_document_by_id validId st.clients tp.from_client_id = none ∨
          get_document_by_id validId st.clients tp.to_client_id = none) :
    (∀ gw : PayoutPayload → GatewayOutcome,
      withdraw env validId gw now st p = .error ⟨404, "Client not found"⟩) ∧
    (∀ gw : PayoutPayload → GatewayOutcome,
      transfer env validId gw now st tp = .error ⟨404, "Client not found"⟩) := by
  have hle : ¬ tp.amount ≤ 0 := not_le.mpr hpos
  constructor
  · intro gw
    simp [withdraw, hw]
  · intro gw
    rcases ht with h | h
    · simp [transfer, hle, h]
    · cases hf : get_document_by_id validId st.clients tp.from_client_id with
      | none => simp [transfer, hle, hf]
      | some cfound => simp [transfer, hle, hf, h]

/-- Witness for the amended C6: both operations against an empty store
return 404 Client not found. -/
theorem C6_witness :
    withdraw sampleEnv allValid gwDown 0 emptyStore ⟨"x", 5, none⟩ =
      .error ⟨404, "Client not found"⟩ ∧
    transfer sampleEnv allValid gwDown 0 emptyStore ⟨"x", "y", 5, none⟩ =
      .error ⟨404, "Client not found"⟩ :=
  ⟨(C6_notfound_amended sampleEnv allValid 0 emptyStore ⟨"x", 5, none⟩
      ⟨"x", "y", 5, none⟩ rfl (by norm_num) (Or.inl rfl)).1 gwDown,
   (C6_notfound_amended sampleEnv allValid 0 emptyStore ⟨"x", 5, none⟩
      ⟨"x", "y", 5, none⟩ rfl (by norm_num) (Or.inl rfl)).2 gwDown⟩

/-- C7: the withdraw handler has no positivity check on the amount: a
request with a non-positive amount against a client whose stored capital
is at least that amount is processed, the stored capital becomes
capital - amount, which is no smaller than before and strictly larger
when the amount is negative, and one log record is still appended. -/
theorem C7_withdraw_nonpositive (env : Env) (validId : String → Bool)
    (gateway : PayoutPayload → GatewayOutcome) (now : Nat) (st : Store)
    (p : WithdrawRequest) (c : Client) (b : ℚ)
    (hnp : p.amount ≤ 0)
    (hv : validId p.client_id = true)
    (hc : assocFind st.clients p.client_id = some c)
    (hb : c.capital = some b)
    (hba : p.amount ≤ b) :
    withdraw env validId gateway now st p =
      .ok ({ clients := (assocIncCapital st.clients p.client_id (-p.amount)).1,
             logs := st.logs ++ [(newLogId st.nextId,
               { client_id := p.client_id, amount := p.amount, action := "withdraw",
                 timestamp := now, note := p.note,
                 external := gatewayCapture (gateway (withdrawPayoutPayload env now p)) })],
             nextId := st.nextId + 1 },
           { status := "processed", log_id := newLogId st.nextId,
             razorpay := gatewayCapture (gateway (withdrawPayoutPayload env now p)) }) ∧
    assocFind (assocIncCapital st.clients p.client_id (-p.amount)).1 p.client_id =
      some { c with capital := some (b - p.amount) } ∧
    b ≤ b - p.amount ∧
    (p.amount < 0 → b < b - p.amount) := by
  have hnl : ¬ c.capital.getD 0 < p.amount := by
    rw [hb]
    simpa using not_lt.mpr hba
  refine ⟨withdraw_ok env validId gateway now st p c hv hc hnl, ?_, ?_, ?_⟩
  · rw [assocFind_incCapital_same, hc]
    simp [incCapitalDoc, hb, sub_eq_add_neg]
  · linarith
  · intro h
    linarith

/-- Witness for C7: withdrawing the negative amount -10 from a client
holding 100 is processed and leaves it stored with capital 110. -/
theorem C7_witness :
    assocFind (assocIncCapital sampleStore.clients "c1" (-(-10 : ℚ))).1 "c1" =
      some { sampleClient with capital := some (100 - (-10)) } ∧
    (100 : ℚ) < 100 - (-10) :=
  ⟨(C7_withdraw_nonpositive sampleEnv allValid gwDown 0 sampleStore
      ⟨"c1", -10, none⟩ sampleClient 100 (by norm_num) rfl (by decide) rfl
      (by norm_num)).2.1,
   (C7_withdraw_nonpositive sampleEnv allValid gwDown 0 sampleStore
      ⟨"c1", -10, none⟩ sampleClient 100 (by norm_num) rfl (by decide) rfl
      (by norm_num)).2.2.2 (by norm_num)⟩

/-- C8: both payout payload builders send the request amount converted to
integer minor units by the Python expression int(amount * 100), truncation
toward zero of the exact product; whenever that product is an integer the
value sent equals exactly one hundred times the request amount. -/
theorem C8_payout_minor_units (env : Env) (now : Nat)
    (p : WithdrawRequest) (tp : TransferRequest) :
    (withdrawPayoutPayload env now p).amount = pyInt (p.amount * 100) ∧
    (transferPayoutPayload env now tp).amount = pyInt (tp.amount * 100) ∧
    ((p.amount * 100).den = 1 →
      ((withdrawPayoutPayload env now p).amount : ℚ) = p.amount * 100) ∧
    ((tp.amount * 100).den = 1 →
      ((transferPayoutPayload env now tp).amount : ℚ) = tp.amount * 100) :=
  ⟨rfl, rfl, fun h => pyInt_of_den_one h, fun h => pyInt_of_den_one h⟩

/-- Witness for C8: a withdraw of 12.5 sends 1250 minor units, exactly
one hundred times the amount. -/
theorem C8_witness :
    ((25 / 2 : ℚ) * 100).den = 1 ∧
    ((withdrawPayoutPayload sampleEnv 0 ⟨"c1", 25 / 2, none⟩).amount : ℚ) =
      (25 / 2 : ℚ) * 100 :=
  ⟨by norm_num [Rat.den_eq_one_iff],
   (C8_payout_minor_units sampleEnv 0 ⟨"c1", 25 / 2, none⟩
      ⟨"c1", "c2", 1, none⟩).2.2.1 (by norm_num [Rat.den_eq_one_iff])⟩

/-- C9: the store lookup is a total function into an optional result: it
returns none when the id is malformed, returns none when no record
matches, and any record it does return is one stored in the collection
under that id; no exception reaches the caller. -/
theorem C9_lookup_soft_fail {α : Type} (validId : String → Bool)
    (coll : List (String × α)) (id : String) :
    (validId id = false → get_document_by_id validId coll id = none) ∧
    ((∀ q ∈ coll, q.1 ≠ id) → get_document_by_id validId coll id = none) ∧
    (∀ d, get_document_by_id validId coll id = some d → (id, d) ∈ coll) := by
  refine ⟨?_, ?_, ?_⟩
  · intro h
    simp [get_document_by_id, h]
  · intro h
    by_cases hv : validId id = true
    · simp [get_document_by_id, hv, assocFind_eq_none h]
    · simp [get_document_by_id, hv]
  · intro d hd
    by_cases hv : validId id = true
    · rw [get_document_by_id, if_pos hv] at hd
      exact assocFind_mem hd
    · rw [get_document_by_id, if_neg hv] at hd
      exact absurd hd (by simp)

/-- Witness for C9: a lookup with a predicate rejecting every id returns
none, and a lookup for an id missing from a nonempty collection returns
none. -/
theorem C9_witness :
    get_document_by_id (fun _ => false) sampleStore.clients "c1" = none ∧
    get_document_by_id allValid sampleStore.clients "zzz" = none :=
  ⟨(C9_lookup_soft_fail (α := Client) (fun _ => false) sampleStore.clients "c1").1 rfl,
   (C9_lookup_soft_fail (α := Client) allValid sampleStore.clients "zzz").2.1
     (by decide)⟩

/-- C10: a transfer whose source and destination are the same stored
client with a positive amount not exceeding its capital is accepted: the
handler returns status processed, the decrement and increment cancel so
the stored capital is unchanged, the captured gateway result of the
payout call is recorded and echoed, and exactly one transfer log record
is appended. -/
theorem C10_self_transfer (env : Env) (validId : String → Bool)
    (gateway : PayoutPayload → GatewayOutcome) (now : Nat) (st : Store)
    (p : TransferRequest) (c : Client) (b : ℚ)
    (hself : p.from_client_id = p.to_client_id)
    (hv : validId p.from_client_id = true)
    (hc : assocFind st.clients p.from_client_id = some c)
    (hb : c.capital = some b)
    (hpos : 0 < p.amount)
    (hba : p.amount ≤ b) :
    transfer env validId gateway now st p =
      .ok ({ clients := (assocIncCapital
               (assocIncCapital st.clients p.from_client_id (-p.amount)).1
               p.to_client_id p.amount).1,
             logs := st.logs ++ [(newLogId st.nextId,
               { client_id := p.to_client_id, amount := p.amount, action := "transfer",
                 timestamp := now, note := p.note,
                 external := gatewayCapture (gateway (transferPayoutPayload env now p)) })],
             nextId := st.nextId + 1 },
           { status := "processed", log_id := newLogId st.nextId,
             razorpay := gatewayCapture (gateway (transferPayoutPayload env now p)) }) ∧
    assocFind (assocIncCapital
        (assocIncCapital st.clients p.from_client_id (-p.amount)).1
        p.to_client_id p.amount).1 p.from_client_id =
      some { c with capital := some b } := by
  obtain ⟨fid, tid, amt, note⟩ := p
  simp only at hself hv hc hba hpos
  subst hself
  have hnl : ¬ c.capital.getD 0 < amt := by
    rw [hb]
    simpa using not_lt.mpr hba
  have hle : ¬ amt ≤ 0 := not_le.mpr hpos
  refine ⟨transfer_ok env validId gateway now st ⟨fid, fid, amt, note⟩ c c
      hle hv hv hc hc hnl, ?_⟩
  rw [assocFind_incCapital_same, assocFind_incCapital_same, hc]
  simp [incCapitalDoc, hb]

/-- Witness for C10: a self transfer of 10 by a client holding 100 leaves
its stored capital at 100. -/
theorem C10_witness :
    assocFind (assocIncCapital
        (assocIncCapital sampleStore.clients "c1" (-(10 : ℚ))).1
        "c1" 10).1 "c1" =
      some { sampleClient with capital := some 100 } :=
  (C10_self_transfer sampleEnv allValid gwDown 0 sampleStore
    ⟨"c1", "c1", 10, none⟩ sampleClient 100 rfl rfl (by decide) rfl
    (by norm_num) (by norm_num)).2
